import Mathlib

/-!
Shallow embedding of the uma-musume-pc-automation core: the screen
classification and action dispatch loop of `src/uma_automation.py`
(class `UmaMusumeAutomation`) and the window tracking / coordinate
mapping of `src/window_detector.py` (class `WindowDetector`).

Pixels, OS calls and OpenCV primitives are oracles: a `Frame` is an
opaque type parameter, the OpenCV `matchTemplate` maximum score and
location for a given template name on a given frame are fields of a
`MatchEnv`, the tesseract output is a plain string input, and whether
`pyautogui.click` raises is a boolean input per iteration.  Everything
the Python code itself computes (threshold comparison, dictionary
lookup, string scanning, counter management, state-machine branching)
is translated directly.
-/

namespace Uma

/-- Substring test on character lists: does the first list start with the
second one?  Models Python string containment together with
`charsContains`. -/
def charsPrefix : List Char → List Char → Bool
  | [], _ => true
  | _ :: _, [] => false
  | a :: as, b :: bs => a == b && charsPrefix as bs

/-- Does the needle (second argument) occur as a contiguous run inside the
haystack (first argument)?  Models the Python `needle in haystack` test on
strings. -/
def charsContains : List Char → List Char → Bool
  | [], needle => needle.isEmpty
  | c :: rest, needle => charsPrefix needle (c :: rest) || charsContains rest needle

/-- Python `needle in hay` for strings. -/
def strContains (hay needle : String) : Bool :=
  charsContains hay.toList needle.toList

/-- Python `str.lower()`, character by character. -/
def pyLower (s : String) : String :=
  String.mk (s.data.map Char.toLower)

/-- Session statistics dictionary `self.session_stats` of
`UmaMusumeAutomation.__init__` (uma_automation.py lines 53-58). -/
structure SessionStats where
  training_sessions : Nat
  races_completed : Nat
  events_handled : Nat
  errors_encountered : Nat
deriving DecidableEq, Repr

/-- Initial statistics: every counter starts at zero. -/
def SessionStats.init : SessionStats := ⟨0, 0, 0, 0⟩

/-- Componentwise order on the four counters. -/
def SessionStats.le (a b : SessionStats) : Prop :=
  a.training_sessions ≤ b.training_sessions ∧
  a.races_completed ≤ b.races_completed ∧
  a.events_handled ≤ b.events_handled ∧
  a.errors_encountered ≤ b.errors_encountered

instance (a b : SessionStats) : Decidable (SessionStats.le a b) := by
  unfold SessionStats.le; infer_instance

/-- Oracle environment for OpenCV template matching.  `templates` is the
key set of the `self.templates` dictionary filled by `load_templates`;
`maxVal`, `maxLoc` are the results of `cv2.minMaxLoc` applied to
`cv2.matchTemplate(screenshot, template, cv2.TM_CCOEFF_NORMED)`;
`tmplSize` is `template.shape[:2]`, i.e. (height, width). -/
structure MatchEnv (Frame : Type) where
  templates : List String
  maxVal : String → Frame → ℚ
  maxLoc : String → Frame → Int × Int
  tmplSize : String → Int × Int

/-- Default value of the `threshold` parameter of `find_template`
(uma_automation.py line 129): 0.8. -/
def default_threshold : ℚ := 8 / 10

/-- UmaMusumeAutomation.find_template (uma_automation.py lines 128-144):
returns None when the name is not a key of the template dictionary,
otherwise the best-match rectangle (x, y, x + w, y + h) when the maximal
normalized correlation is at least the threshold, and None below it. -/
def find_template {Frame : Type} (env : MatchEnv Frame) (template_name : String)
    (screenshot : Frame) (threshold : ℚ) : Option (Int × Int × Int × Int) :=
  if env.templates.contains template_name then
    let max_val := env.maxVal template_name screenshot
    if max_val ≥ threshold then
      let loc := env.maxLoc template_name screenshot
      let sz := env.tmplSize template_name
      some (loc.1, loc.2, loc.1 + sz.2, loc.2 + sz.1)
    else
      none
  else
    none

/-- UmaMusumeAutomation.detect_screen (uma_automation.py lines 181-199):
checks the four screen-identifying templates in order with the default
threshold and returns the first hit, "unknown" otherwise. -/
def detect_screen {Frame : Type} (env : MatchEnv Frame) (screenshot : Frame) : String :=
  if (find_template env "main_menu" screenshot default_threshold).isSome then
    "main_menu"
  else if (find_template env "training_screen" screenshot default_threshold).isSome then
    "training_screen"
  else if (find_template env "race_screen" screenshot default_threshold).isSome then
    "race_screen"
  else if (find_template env "event_screen" screenshot default_threshold).isSome then
    "event_screen"
  else
    "unknown"

/-- Error indicator keywords of `check_for_errors`
(uma_automation.py line 321). -/
def error_indicators : List String := ["error", "failed", "connection lost", "retry"]

/-- UmaMusumeAutomation.check_for_errors (uma_automation.py lines 318-329):
lower-cases the OCR output of the full screenshot and reports whether any
of the fixed failure keywords occurs in it.  The argument is the string
returned by `ocr_text(screenshot)`. -/
def check_for_errors (screenshot_text : String) : Bool :=
  error_indicators.any (fun indicator => strContains (pyLower screenshot_text) indicator)

/-- UmaMusumeAutomation.ocr_text error behaviour (uma_automation.py lines
146-164): the pytesseract recognition result is the oracle `recognized`;
any internal exception is caught and yields the empty string. -/
def ocr_text_result (ocr_raises : Bool) (recognized : String) : String :=
  if ocr_raises then "" else recognized

/-- UmaMusumeAutomation.click_at (uma_automation.py lines 166-179) effect on
the session statistics: a raised click exception is caught inside and
increments `errors_encountered`; a successful click changes nothing. -/
def click_at (click_fails : Bool) (stats : SessionStats) : SessionStats :=
  if click_fails then
    { stats with errors_encountered := stats.errors_encountered + 1 }
  else
    stats

/-- UmaMusumeAutomation.handle_main_menu (uma_automation.py lines 201-213):
clicks the centre of `training_button` when found on the handler's own
screenshot. -/
def handle_main_menu {Frame : Type} (env : MatchEnv Frame) (screenshot : Frame)
    (click_fails : Bool) (stats : SessionStats) : Bool × SessionStats :=
  match find_template env "training_button" screenshot default_threshold with
  | some _ => (true, click_at click_fails stats)
  | none => (false, stats)

/-- Training option template names tried by `handle_training_screen`
(uma_automation.py lines 221-222). -/
def training_options : List String :=
  ["speed_train", "stamina_train", "power_train",
   "guts_train", "intelligence_train", "technique_train"]

/-- UmaMusumeAutomation.handle_training_screen (uma_automation.py lines
215-231): clicks the first training option template found. -/
def handle_training_screen {Frame : Type} (env : MatchEnv Frame) (screenshot : Frame)
    (click_fails : Bool) (stats : SessionStats) : Bool × SessionStats :=
  match training_options.find?
      (fun option => (find_template env option screenshot default_threshold).isSome) with
  | some _ => (true, click_at click_fails stats)
  | none => (false, stats)

/-- UmaMusumeAutomation.handle_event_screen (uma_automation.py lines
233-245): clicks `confirm_button` when found. -/
def handle_event_screen {Frame : Type} (env : MatchEnv Frame) (screenshot : Frame)
    (click_fails : Bool) (stats : SessionStats) : Bool × SessionStats :=
  match find_template env "confirm_button" screenshot default_threshold with
  | some _ => (true, click_at click_fails stats)
  | none => (false, stats)

/-- UmaMusumeAutomation.handle_race_screen (uma_automation.py lines
247-267): with `skip_races` set clicks `skip_race_button` first when it is
found, otherwise clicks `race_start_button` when found. -/
def handle_race_screen {Frame : Type} (env : MatchEnv Frame) (screenshot : Frame)
    (skip_races : Bool) (click_fails : Bool) (stats : SessionStats) : Bool × SessionStats :=
  if skip_races ∧ (find_template env "skip_race_button" screenshot default_threshold).isSome then
    (true, click_at click_fails stats)
  else
    match find_template env "race_start_button" screenshot default_threshold with
    | some _ => (true, click_at click_fails stats)
    | none => (false, stats)

/-- UmaMusumeAutomation.handle_race_result (uma_automation.py lines
269-282): clicks `continue_button` when found, then increments
`races_completed` and reports success. -/
def handle_race_result {Frame : Type} (env : MatchEnv Frame) (screenshot : Frame)
    (click_fails : Bool) (stats : SessionStats) : Bool × SessionStats :=
  match find_template env "continue_button" screenshot default_threshold with
  | some _ =>
    let stats1 := click_at click_fails stats
    (true, { stats1 with races_completed := stats1.races_completed + 1 })
  | none => (false, stats)

/-- UmaMusumeAutomation.handle_training_result (uma_automation.py lines
284-297): clicks `continue_button` when found, then increments
`training_sessions` and reports success. -/
def handle_training_result {Frame : Type} (env : MatchEnv Frame) (screenshot : Frame)
    (click_fails : Bool) (stats : SessionStats) : Bool × SessionStats :=
  match find_template env "continue_button" screenshot default_threshold with
  | some _ =>
    let stats1 := click_at click_fails stats
    (true, { stats1 with training_sessions := stats1.training_sessions + 1 })
  | none => (false, stats)

/-- UmaMusumeAutomation.handle_choice_screen (uma_automation.py lines
299-316): reads the choice text (logging only), clicks `choice_option_1`
when found, then increments `events_handled` and reports success. -/
def handle_choice_screen {Frame : Type} (env : MatchEnv Frame) (screenshot : Frame)
    (click_fails : Bool) (stats : SessionStats) : Bool × SessionStats :=
  match find_template env "choice_option_1" screenshot default_threshold with
  | some _ =>
    let stats1 := click_at click_fails stats
    (true, { stats1 with events_handled := stats1.events_handled + 1 })
  | none => (false, stats)

/-- Mutable state of the automation loop in `run_automation`
(uma_automation.py lines 335-418): the `self.running` flag, the
`consecutive_unknown_screens` local counter, and the session statistics. -/
structure LoopState where
  running : Bool
  consecutive_unknown : Nat
  stats : SessionStats
deriving DecidableEq, Repr

/-- State at the top of `run_automation` right after `self.running = True`
and `consecutive_unknown_screens = 0`. -/
def LoopState.start : LoopState := ⟨true, 0, SessionStats.init⟩

/-- The `max_unknown_screens` constant of `run_automation`
(uma_automation.py line 349). -/
def max_unknown_screens : Nat := 10

/-- One iteration's worth of oracle inputs: the loop's own
`capture_screen()` result (`none` models a capture failure returning
None), the `ocr_text` output on that screenshot used by
`check_for_errors`, the screenshot captured inside whichever handler runs
(`none` models a failed handler capture, which makes the handler raise
into the loop-boundary `except`), and whether `pyautogui.click` raises
during this iteration's single click attempt. -/
structure IterInput (Frame : Type) where
  shot : Option Frame
  ocrText : String
  handlerShot : Option Frame
  clickFails : Bool

/-- Which control path an iteration of `run_automation` took, determining
the `time.sleep` call it performs. -/
inductive IterEffect where
  | idle
  | captureFailRetry
  | errorBackoff
  | stopUnknown
  | exceptionRecovered
  | handledAction
  | noAction
deriving DecidableEq, Repr

/-- Seconds slept by each control path of the loop body: 1 after a failed
capture (line 356), 3 after an error-keyword hit (line 362), 2 in the
loop-boundary except (line 414), 0.5 after a handled action (line 406),
and the configurable `screenshot_delay` (default 1.0) after an unhandled
one (line 404). -/
def sleep_seconds (screenshot_delay : ℚ) : IterEffect → ℚ
  | .idle => 0
  | .captureFailRetry => 1
  | .errorBackoff => 3
  | .stopUnknown => 0
  | .exceptionRecovered => 2
  | .handledAction => 1 / 2
  | .noAction => screenshot_delay

/-- Dispatch section of the loop body (uma_automation.py lines 377-400):
the elif chain on `current_screen`.  Handlers capture their own
screenshot; when that capture returned None the handler's
`find_template` call raises inside OpenCV, modelled by the `none` result
(caught at the loop boundary).  The fallback branch for unmatched screen
names reuses the loop's own screenshot to try `continue_button`. -/
def dispatch_screen {Frame : Type} (env : MatchEnv Frame) (skip_races : Bool)
    (current_screen : String) (handlerShot : Option Frame) (loopShot : Frame)
    (click_fails : Bool) (stats : SessionStats) : Option (Bool × SessionStats) :=
  if current_screen = "main_menu" then
    handlerShot.map (fun shot => handle_main_menu env shot click_fails stats)
  else if current_screen = "training_screen" then
    handlerShot.map (fun shot => handle_training_screen env shot click_fails stats)
  else if current_screen = "event_screen" then
    handlerShot.map (fun shot => handle_event_screen env shot click_fails stats)
  else if current_screen = "race_screen" then
    handlerShot.map (fun shot => handle_race_screen env shot skip_races click_fails stats)
  else if current_screen = "race_result" then
    handlerShot.map (fun shot => handle_race_result env shot click_fails stats)
  else if current_screen = "training_result" then
    handlerShot.map (fun shot => handle_training_result env shot click_fails stats)
  else if current_screen = "choice_screen" then
    handlerShot.map (fun shot => handle_choice_screen env shot click_fails stats)
  else
    some (match find_template env "continue_button" loopShot default_threshold with
      | some _ => (true, click_at click_fails stats)
      | none => (false, stats))

/-- Applies the dispatch result to the loop state: a raised handler is
caught by the loop-boundary `except Exception` (lines 411-414), which
increments `errors_encountered`; otherwise the handler's statistics are
committed and the pacing branch is chosen by `handled` (lines 402-406). -/
def step_dispatch {Frame : Type} (env : MatchEnv Frame) (skip_races : Bool)
    (inp : IterInput Frame) (current_screen : String) (loopShot : Frame)
    (s : LoopState) : LoopState × IterEffect :=
  match dispatch_screen env skip_races current_screen inp.handlerShot loopShot
      inp.clickFails s.stats with
  | none =>
    ({ s with stats :=
        { s.stats with errors_encountered := s.stats.errors_encountered + 1 } },
      .exceptionRecovered)
  | some (handled, stats1) =>
    ({ s with stats := stats1 }, if handled then .handledAction else .noAction)

/-- One iteration of the `while self.running` body of `run_automation`
(uma_automation.py lines 351-414): capture, error scan, classification
with the consecutive-unknown counter and its ceiling, then dispatch.
Reaching the ceiling executes `break`, after which line 416 sets
`self.running = False`; this is modelled by clearing `running` in the
returned state. -/
def loop_step {Frame : Type} (env : MatchEnv Frame) (skip_races : Bool)
    (inp : IterInput Frame) (s : LoopState) : LoopState × IterEffect :=
  if s.running = false then (s, .idle)
  else
    match inp.shot with
    | none => (s, .captureFailRetry)
    | some shot =>
      if check_for_errors inp.ocrText then (s, .errorBackoff)
      else
        let current_screen := detect_screen env shot
        if current_screen ≠ "unknown" then
          step_dispatch env skip_races inp current_screen shot
            { s with consecutive_unknown := 0 }
        else
          let c := s.consecutive_unknown + 1
          if c ≥ max_unknown_screens then
            ({ s with consecutive_unknown := c, running := false }, .stopUnknown)
          else
            step_dispatch env skip_races inp current_screen shot
              { s with consecutive_unknown := c }

/-- A run of the automation loop over a list of per-iteration oracle
inputs, threading the loop state. -/
def run_loop {Frame : Type} (env : MatchEnv Frame) (skip_races : Bool)
    (inps : List (IterInput Frame)) (s : LoopState) : LoopState :=
  inps.foldl (fun t inp => (loop_step env skip_races inp t).1) s

/-- Window rectangle (x, y, width, height) as returned by
`WindowDetector.find_uma_musume_window` (window_detector.py). -/
structure WindowRect where
  x : Int
  y : Int
  w : Int
  h : Int
deriving DecidableEq, Repr

/-- The `self.window_rect` cache of `WindowDetector`
(window_detector.py line 23). -/
structure WindowDetectorState where
  window_rect : Option WindowRect
deriving DecidableEq, Repr

/-- WindowDetector.get_game_region (window_detector.py lines 136-148).
`os_query` is the oracle answer `find_uma_musume_window()` would give if
invoked.  Returns the updated cache, the region (left, top, right,
bottom) or none, and whether the OS was actually queried. -/
def get_game_region (os_query : Option WindowRect) (ds : WindowDetectorState) :
    WindowDetectorState × Option (Int × Int × Int × Int) × Bool :=
  let queried := ds.window_rect.isNone
  let ds1 : WindowDetectorState :=
    if ds.window_rect.isNone then ⟨os_query⟩ else ds
  match ds1.window_rect with
  | some r => (ds1, some (r.x, r.y, r.x + r.w, r.y + r.h), queried)
  | none => (ds1, none, queried)

/-- Python `int()` truncation toward zero on an exact rational. -/
def py_int (q : ℚ) : Int :=
  if q < 0 then -⌊-q⌋ else ⌊q⌋

/-- Rounding to the nearest integer with ties to even, the rounding
direction of IEEE-754 binary arithmetic used by CPython floats. -/
def rnEven (q : ℚ) : ℤ :=
  if q - ⌊q⌋ < 1 / 2 then ⌊q⌋
  else if 1 / 2 < q - ⌊q⌋ then ⌊q⌋ + 1
  else if 2 ∣ ⌊q⌋ then ⌊q⌋ else ⌊q⌋ + 1

/-- Rounding of an exact rational to the nearest IEEE-754 binary64
value (53-bit significand, round to nearest, ties to even), the
operation CPython performs after every float arithmetic step, on
int-to-float conversion, and for int/int true division.  Exponent
clamping is not modelled: every quantity arising in the coordinate
functions is far inside the normal double range (magnitudes below
2^1023 and, when nonzero, above 2^-1022) for any representable window
geometry. -/
def fl64 (q : ℚ) : ℚ :=
  if q = 0 then 0
  else
    (rnEven (q * 2 ^ ((52 : ℤ) - Int.log 2 |q|)) : ℚ) * 2 ^ (Int.log 2 |q| - (52 : ℤ))

/-- WindowDetector.get_relative_coordinates (window_detector.py lines
176-187): scales an absolute point into window-fractional coordinates
using the cached rectangle, falling back to the display size
`pyautogui.size()` when no rectangle is cached.  `(x - window_x)` is
exact Python integer arithmetic; the `/` is CPython int/int true
division, which produces the correctly rounded double of the exact
quotient: one `fl64`. -/
def get_relative_coordinates (wr : Option WindowRect) (screenW screenH : Int)
    (x y : Int) : ℚ × ℚ :=
  match wr with
  | some r => (fl64 (((x : ℚ) - r.x) / r.w), fl64 (((y : ℚ) - r.y) / r.h))
  | none => (fl64 ((x : ℚ) / screenW), fl64 ((y : ℚ) / screenH))

/-- WindowDetector.get_absolute_coordinates (window_detector.py lines
189-200): maps fractional coordinates back to absolute pixels with
Python `int()` truncation, falling back to the display size when no
rectangle is cached.  `rel_x * window_w` converts the int to a double
(one rounding) and multiplies (one rounding); `window_x + (...)`
converts and adds (one rounding each); `int()` then truncates the
resulting double exactly. -/
def get_absolute_coordinates (wr : Option WindowRect) (screenW screenH : Int)
    (rel_x rel_y : ℚ) : Int × Int :=
  match wr with
  | some r =>
    (py_int (fl64 (fl64 (r.x : ℚ) + fl64 (rel_x * fl64 (r.w : ℚ)))),
     py_int (fl64 (fl64 (r.y : ℚ) + fl64 (rel_y * fl64 (r.h : ℚ)))))
  | none =>
    (py_int (fl64 (rel_x * fl64 (screenW : ℚ))),
     py_int (fl64 (rel_y * fl64 (screenH : ℚ))))

/-! Concrete oracle environments used to instantiate theorems with
hypotheses on explicit inputs. -/

/-- A template library with no templates loaded; every score is 0. -/
def wEnvNone : MatchEnv Unit :=
  ⟨[], fun _ _ => 0, fun _ _ => (0, 0), fun _ => (0, 0)⟩

/-- A library holding only the main-menu screen template, matching
perfectly everywhere. -/
def wEnvMain : MatchEnv Unit :=
  ⟨["main_menu"], fun _ _ => 1, fun _ _ => (3, 4), fun _ => (10, 20)⟩

/-- A library holding the continue and first-choice buttons, matching
perfectly everywhere. -/
def wEnvCont : MatchEnv Unit :=
  ⟨["continue_button", "choice_option_1"], fun _ _ => 1, fun _ _ => (3, 4), fun _ => (10, 20)⟩

/-- An iteration input whose capture succeeds, whose OCR text is clean,
and whose handler capture succeeds. -/
def wInpOk : IterInput Unit := ⟨some (), "", some (), false⟩

/-- An iteration input whose loop-level capture fails. -/
def wInpCapFail : IterInput Unit := ⟨none, "", some (), false⟩

/-- An iteration input whose OCR scan reports a lost connection. -/
def wInpConnLost : IterInput Unit := ⟨some (), "Connection Lost - tap to retry", some (), false⟩

/-- The four screen-identifying template names, in the order
`detect_screen` checks them. -/
def screen_priority : List String :=
  ["main_menu", "training_screen", "race_screen", "event_screen"]

/-- C4: template matching with a name absent from the template library
returns None for every frame and every threshold; the lookup is a total
function (no exception path exists), so it can neither raise nor abort
the loop. -/
theorem find_template_missing_returns_none {Frame : Type} (env : MatchEnv Frame)
    (template_name : String) (screenshot : Frame) (threshold : ℚ)
    (h : env.templates.contains template_name = false) :
    find_template env template_name screenshot threshold = none := by
  unfold find_template
  rw [h]
  simp

/-- Witness for C4 at an explicit input: the empty library knows no
template named race_banner. -/
theorem find_template_missing_returns_none_witness :
    find_template wEnvNone "race_banner" () default_threshold = none :=
  find_template_missing_returns_none wEnvNone "race_banner" () default_threshold (by decide)

/-- C2: the screen classifier checks main_menu, training_screen,
race_screen, event_screen in that fixed priority order, returns the
first whose template matches at or above the default threshold, and
returns "unknown" exactly when none of the four matches. -/
theorem detect_screen_priority {Frame : Type} (env : MatchEnv Frame) (screenshot : Frame) :
    ((find_template env "main_menu" screenshot default_threshold).isSome = true →
      detect_screen env screenshot = "main_menu") ∧
    ((find_template env "main_menu" screenshot default_threshold).isSome = false →
      (find_template env "training_screen" screenshot default_threshold).isSome = true →
      detect_screen env screenshot = "training_screen") ∧
    ((find_template env "main_menu" screenshot default_threshold).isSome = false →
      (find_template env "training_screen" screenshot default_threshold).isSome = false →
      (find_template env "race_screen" screenshot default_threshold).isSome = true →
      detect_screen env screenshot = "race_screen") ∧
    ((find_template env "main_menu" screenshot default_threshold).isSome = false →
      (find_template env "training_screen" screenshot default_threshold).isSome = false →
      (find_template env "race_screen" screenshot default_threshold).isSome = false →
      (find_template env "event_screen" screenshot default_threshold).isSome = true →
      detect_screen env screenshot = "event_screen") ∧
    (detect_screen env screenshot = "unknown" ↔
      ∀ name ∈ screen_priority,
        (find_template env name screenshot default_threshold).isSome = false) := by
  cases h1 : find_template env "main_menu" screenshot default_threshold <;>
    cases h2 : find_template env "training_screen" screenshot default_threshold <;>
      cases h3 : find_template env "race_screen" screenshot default_threshold <;>
        cases h4 : find_template env "event_screen" screenshot default_threshold <;>
          simp_all [detect_screen, screen_priority]

/-- Witness for C2 at an explicit input: with only the main-menu template
loaded and matching, classification returns main_menu; with an empty
library, classification returns unknown. -/
theorem detect_screen_priority_witness :
    detect_screen wEnvMain () = "main_menu" ∧ detect_screen wEnvNone () = "unknown" :=
  ⟨(detect_screen_priority wEnvMain ()).1
      (by norm_num [find_template, wEnvMain, default_threshold]),
   (detect_screen_priority wEnvNone ()).2.2.2.2.mpr (by decide)⟩

/-- C10: the window-region getter queries the OS only while the cache is
empty; once a rectangle is cached every later call returns the same
(left, top, right, bottom) region without querying, whatever the OS
would now answer, and calls after the first success are idempotent. -/
theorem get_game_region_cache_behavior (ds : WindowDetectorState) (r : WindowRect)
    (q q' : Option WindowRect) :
    (ds.window_rect = some r →
      get_game_region q ds = (ds, some (r.x, r.y, r.x + r.w, r.y + r.h), false)) ∧
    (ds.window_rect = none → (get_game_region q ds).2.2 = true) ∧
    (ds.window_rect = none →
      get_game_region (some r) ds =
        (⟨some r⟩, some (r.x, r.y, r.x + r.w, r.y + r.h), true) ∧
      get_game_region q' ⟨some r⟩ =
        (⟨some r⟩, some (r.x, r.y, r.x + r.w, r.y + r.h), false)) := by
  refine ⟨fun h => ?_, fun h => ?_, fun h => ⟨?_, ?_⟩⟩
  · simp [get_game_region, h]
  · cases q <;> simp [get_game_region, h]
  · simp [get_game_region, h]
  · simp [get_game_region]

/-- Witness for C10 at an explicit input: a cached rectangle is returned
as a region without consulting the OS, even when the OS would now answer
a different rectangle. -/
theorem get_game_region_cache_behavior_witness :
    get_game_region (some ⟨7, 7, 7, 7⟩) ⟨some ⟨1, 2, 3, 4⟩⟩ =
      (⟨some ⟨1, 2, 3, 4⟩⟩, some (1, 2, 4, 6), false) :=
  (get_game_region_cache_behavior ⟨some ⟨1, 2, 3, 4⟩⟩ ⟨1, 2, 3, 4⟩
    (some ⟨7, 7, 7, 7⟩) none).1 rfl

/-- Truncation toward zero of an integer embedded in ℚ is that integer. -/
theorem py_int_intCast (n : Int) : py_int (n : ℚ) = n := by
  unfold py_int
  split
  · rw [← Int.cast_neg, Int.floor_intCast, neg_neg]
  · exact Int.floor_intCast n

/-- Truncation toward zero moves a rational by strictly less than one. -/
theorem py_int_abs_lt (q : ℚ) : |(py_int q : ℚ) - q| < 1 := by
  unfold py_int
  split
  · have h1 : (⌊-q⌋ : ℚ) ≤ -q := Int.floor_le (-q)
    have h2 : -q < ⌊-q⌋ + 1 := Int.lt_floor_add_one (-q)
    rw [abs_lt]
    push_cast
    constructor <;> linarith
  · have h1 : (⌊q⌋ : ℚ) ≤ q := Int.floor_le q
    have h2 : q < ⌊q⌋ + 1 := Int.lt_floor_add_one q
    rw [abs_lt]
    constructor <;> linarith

/-- Nearest-even rounding of a rational lying in the lower half of an
integer gap returns that integer. -/
theorem rnEven_eq_of_lt {q : ℚ} {n : ℤ} (h1 : (n : ℚ) ≤ q) (h2 : q < (n : ℚ) + 1 / 2) :
    rnEven q = n := by
  have hf : ⌊q⌋ = n := Int.floor_eq_iff.mpr ⟨h1, by linarith⟩
  unfold rnEven
  rw [hf, if_pos (by linarith)]

/-- Nearest-even rounding fixes the integers. -/
theorem rnEven_intCast (n : ℤ) : rnEven (n : ℚ) = n :=
  rnEven_eq_of_lt (le_refl _) (by linarith)

/-- Nearest-even rounding moves a rational by at most one half. -/
theorem rnEven_abs_le (q : ℚ) : |(rnEven q : ℚ) - q| ≤ 1 / 2 := by
  have hf1 : (⌊q⌋ : ℚ) ≤ q := Int.floor_le q
  have hf2 : q < ⌊q⌋ + 1 := Int.lt_floor_add_one q
  unfold rnEven
  split_ifs with c1 c2 c3 <;> rw [abs_le] <;> push_cast <;>
    constructor <;> linarith

/-- Uniqueness of the base-2 integer logarithm from its bracketing
powers. -/
theorem log2_eq_of_bounds {q : ℚ} {e : ℤ} (h0 : 0 < q)
    (h1 : (2 : ℚ) ^ e ≤ q) (h2 : q < (2 : ℚ) ^ (e + 1)) : Int.log 2 q = e := by
  have hb : (1 : ℕ) < 2 := by norm_num
  have ha : e ≤ Int.log 2 q := by
    rw [← Int.zpow_le_iff_le_log hb h0]
    push_cast
    exact h1
  have hc : Int.log 2 q < e + 1 := by
    rw [← Int.lt_zpow_iff_log_lt hb h0]
    push_cast
    exact h2
  omega

/-- Rounding zero gives zero. -/
theorem fl64_zero : fl64 0 = 0 := by
  simp [fl64]

/-- Evaluation rule for binary64 rounding of a positive rational: given
the bracketing exponent and the rounded significand, the result is the
significand scaled back. -/
theorem fl64_eval_pos {q : ℚ} {e s : ℤ} (h0 : 0 < q)
    (h1 : (2 : ℚ) ^ e ≤ q) (h2 : q < (2 : ℚ) ^ (e + 1))
    (hs : rnEven (q * 2 ^ ((52 : ℤ) - e)) = s) :
    fl64 q = (s : ℚ) * 2 ^ (e - (52 : ℤ)) := by
  unfold fl64
  rw [if_neg (ne_of_gt h0), abs_of_pos h0, log2_eq_of_bounds h0 h1 h2, hs]

/-- Binary64 rounding has relative error at most 2^(-53). -/
theorem fl64_rel_error (q : ℚ) : |fl64 q - q| ≤ (2 : ℚ) ^ (-53 : ℤ) * |q| := by
  rcases eq_or_ne q 0 with rfl | hq
  · simp [fl64]
  · unfold fl64
    rw [if_neg hq]
    have h0 : (0 : ℚ) < |q| := abs_pos.mpr hq
    have h1 : (2 : ℚ) ^ (Int.log 2 |q|) ≤ |q| := by
      have := Int.zpow_log_le_self (b := 2) (by norm_num) h0
      push_cast at this
      exact this
    set e : ℤ := Int.log 2 |q| with he
    have hprod : (2 : ℚ) ^ ((52 : ℤ) - e) * (2 : ℚ) ^ (e - (52 : ℤ)) = 1 := by
      rw [← zpow_add₀ (two_ne_zero)]
      norm_num
    have hsplit : (rnEven (q * 2 ^ ((52 : ℤ) - e)) : ℚ) * 2 ^ (e - (52 : ℤ)) - q =
        ((rnEven (q * 2 ^ ((52 : ℤ) - e)) : ℚ) - q * 2 ^ ((52 : ℤ) - e)) *
          2 ^ (e - (52 : ℤ)) := by
      rw [sub_mul, mul_assoc, hprod, mul_one]
    have hppos : (0 : ℚ) < (2 : ℚ) ^ (e - (52 : ℤ)) := by positivity
    calc |(rnEven (q * 2 ^ ((52 : ℤ) - e)) : ℚ) * 2 ^ (e - (52 : ℤ)) - q|
        = |(rnEven (q * 2 ^ ((52 : ℤ) - e)) : ℚ) - q * 2 ^ ((52 : ℤ) - e)| *
            (2 : ℚ) ^ (e - (52 : ℤ)) := by
          rw [hsplit, abs_mul, abs_of_pos hppos]
      _ ≤ (1 / 2) * (2 : ℚ) ^ (e - (52 : ℤ)) :=
          mul_le_mul_of_nonneg_right (rnEven_abs_le _) hppos.le
      _ = (2 : ℚ) ^ (e - (53 : ℤ)) := by
          rw [show (1 : ℚ) / 2 = (2 : ℚ) ^ (-1 : ℤ) by norm_num,
            ← zpow_add₀ (two_ne_zero : (2 : ℚ) ≠ 0)]
          ring_nf
      _ = (2 : ℚ) ^ (-53 : ℤ) * (2 : ℚ) ^ e := by
          rw [← zpow_add₀ (two_ne_zero : (2 : ℚ) ≠ 0)]
          ring_nf
      _ ≤ (2 : ℚ) ^ (-53 : ℤ) * |q| :=
          mul_le_mul_of_nonneg_left h1 (by positivity)

/-- A nonzero integer of magnitude below 2^53 scaled by a power of two
is fixed by binary64 rounding. -/
theorem fl64_int_mul_zpow_aux {m : ℤ} (t : ℤ) (hm0 : m ≠ 0) (hm : |m| < 2 ^ 53) :
    fl64 ((m : ℚ) * (2 : ℚ) ^ t) = (m : ℚ) * (2 : ℚ) ^ t := by
  have ha0 : (0 : ℚ) < ((|m| : ℤ) : ℚ) := by
    exact_mod_cast abs_pos.mpr hm0
  set e : ℤ := Int.log 2 ((|m| : ℤ) : ℚ) with he
  have h1 : (2 : ℚ) ^ e ≤ ((|m| : ℤ) : ℚ) := by
    have := Int.zpow_log_le_self (b := 2) (by norm_num) ha0
    push_cast at this
    rw [he]
    push_cast
    exact this
  have h2 : ((|m| : ℤ) : ℚ) < (2 : ℚ) ^ (e + 1) := by
    have := Int.lt_zpow_succ_log_self (b := 2) (by norm_num) ((|m| : ℤ) : ℚ)
    push_cast at this
    rw [he]
    push_cast
    exact this
  have he0 : 0 ≤ e := by
    have h1m : (2 : ℚ) ^ (0 : ℤ) ≤ ((|m| : ℤ) : ℚ) := by
      rw [zpow_zero]
      exact_mod_cast Int.one_le_abs hm0
    have := (Int.zpow_le_iff_le_log (b := 2) (by norm_num) ha0).mp (by push_cast at h1m ⊢; exact h1m)
    rw [he]
    exact this
  have he52 : e ≤ 52 := by
    have hlt : ((|m| : ℤ) : ℚ) < (2 : ℚ) ^ (53 : ℤ) := by
      have : ((|m| : ℤ) : ℚ) < ((2 ^ 53 : ℤ) : ℚ) := by exact_mod_cast hm
      calc ((|m| : ℤ) : ℚ) < ((2 ^ 53 : ℤ) : ℚ) := this
        _ = (2 : ℚ) ^ (53 : ℤ) := by push_cast; norm_num
    have := (Int.lt_zpow_iff_log_lt (b := 2) (by norm_num) ha0).mp (by push_cast at hlt ⊢; exact hlt)
    rw [← he] at this
    omega
  have hq0 : (m : ℚ) * (2 : ℚ) ^ t ≠ 0 :=
    mul_ne_zero (Int.cast_ne_zero.mpr hm0) (zpow_ne_zero _ two_ne_zero)
  have habs : |(m : ℚ) * (2 : ℚ) ^ t| = ((|m| : ℤ) : ℚ) * (2 : ℚ) ^ t := by
    rw [abs_mul, abs_of_pos (zpow_pos (by norm_num : (0:ℚ) < 2) t), Int.cast_abs]
  have hlog : Int.log 2 |(m : ℚ) * (2 : ℚ) ^ t| = e + t := by
    apply log2_eq_of_bounds (abs_pos.mpr hq0)
    · rw [habs, zpow_add₀ (two_ne_zero : (2:ℚ) ≠ 0)]
      exact mul_le_mul_of_nonneg_right h1 (zpow_pos (by norm_num : (0:ℚ) < 2) t).le
    · rw [habs, show e + t + 1 = (e + 1) + t by ring, zpow_add₀ (two_ne_zero : (2:ℚ) ≠ 0)]
      exact mul_lt_mul_of_pos_right h2 (zpow_pos (by norm_num : (0:ℚ) < 2) t)
  have hk : ((52 : ℤ) - e) = (((52 - e).toNat : ℕ) : ℤ) := (Int.toNat_of_nonneg (by omega)).symm
  have hcast : ((m * 2 ^ (52 - e).toNat : ℤ) : ℚ) = (m : ℚ) * (2 : ℚ) ^ ((52 : ℤ) - e) := by
    push_cast
    rw [← zpow_natCast (2 : ℚ) (52 - e).toNat, ← hk]
  have harg : (m : ℚ) * (2 : ℚ) ^ t * 2 ^ ((52 : ℤ) - (e + t)) =
      ((m * 2 ^ (52 - e).toNat : ℤ) : ℚ) := by
    rw [hcast, mul_assoc, ← zpow_add₀ (two_ne_zero : (2:ℚ) ≠ 0),
      show t + ((52 : ℤ) - (e + t)) = (52 : ℤ) - e by ring]
  unfold fl64
  rw [if_neg hq0, hlog, harg, rnEven_intCast, hcast, mul_assoc,
    ← zpow_add₀ (two_ne_zero : (2:ℚ) ≠ 0),
    show (52 : ℤ) - e + (e + t - 52) = t by ring]

/-- An integer of magnitude at most 2^53 scaled by a power of two is
fixed by binary64 rounding. -/
theorem fl64_rep (m t : ℤ) (hm : |m| ≤ 2 ^ 53) :
    fl64 ((m : ℚ) * (2 : ℚ) ^ t) = (m : ℚ) * (2 : ℚ) ^ t := by
  rcases eq_or_ne m 0 with rfl | hm0
  · simp [fl64_zero]
  rcases lt_or_eq_of_le hm with hlt | heq
  · exact fl64_int_mul_zpow_aux t hm0 hlt
  · have hm2 : m = 2 ^ 53 ∨ m = -(2 ^ 53) := (abs_eq (by positivity)).mp heq
    have key : (m : ℚ) * (2 : ℚ) ^ t = ((m / 2 : ℤ) : ℚ) * (2 : ℚ) ^ (t + 1) := by
      rcases hm2 with rfl | rfl <;>
        · push_cast
          rw [zpow_add₀ (two_ne_zero : (2:ℚ) ≠ 0)]
          ring
    rw [key]
    apply fl64_int_mul_zpow_aux
    · rcases hm2 with rfl | rfl <;> decide
    · rcases hm2 with rfl | rfl <;> decide

/-- An integer of magnitude at most 2^53 converts to a double exactly. -/
theorem fl64_intCast {n : ℤ} (hn : |n| ≤ 2 ^ 53) : fl64 (n : ℚ) = n := by
  have := fl64_rep n 0 hn
  simpa using this

/-- Binary64 rounding is idempotent: rounded values are representable. -/
theorem fl64_idem (q : ℚ) : fl64 (fl64 q) = fl64 q := by
  rcases eq_or_ne q 0 with rfl | hq
  · rw [fl64_zero, fl64_zero]
  · have h0 : (0 : ℚ) < |q| := abs_pos.mpr hq
    set e : ℤ := Int.log 2 |q| with he
    set s : ℤ := rnEven (q * 2 ^ ((52 : ℤ) - e)) with hs
    have hval : fl64 q = (s : ℚ) * 2 ^ (e - (52 : ℤ)) := by
      unfold fl64
      rw [if_neg hq]
    have h2 : |q| < (2 : ℚ) ^ (e + 1) := by
      have := Int.lt_zpow_succ_log_self (b := 2) (by norm_num) |q|
      push_cast at this
      rw [he]
      exact this
    have hppos : (0 : ℚ) < (2 : ℚ) ^ ((52 : ℤ) - e) := zpow_pos (by norm_num) _
    have hargbound : |q * 2 ^ ((52 : ℤ) - e)| < (2 : ℚ) ^ (53 : ℤ) := by
      rw [abs_mul, abs_of_pos hppos]
      calc |q| * (2 : ℚ) ^ ((52 : ℤ) - e) < (2 : ℚ) ^ (e + 1) * (2 : ℚ) ^ ((52 : ℤ) - e) :=
            mul_lt_mul_of_pos_right h2 hppos
        _ = (2 : ℚ) ^ (53 : ℤ) := by
            rw [← zpow_add₀ (two_ne_zero : (2:ℚ) ≠ 0)]
            ring_nf
    have hsb : |s| ≤ 2 ^ 53 := by
      have h3 : |(s : ℚ)| ≤ |q * 2 ^ ((52 : ℤ) - e)| + 1 / 2 := by
        calc |(s : ℚ)| = |((s : ℚ) - q * 2 ^ ((52 : ℤ) - e)) + q * 2 ^ ((52 : ℤ) - e)| := by
              ring_nf
          _ ≤ |(s : ℚ) - q * 2 ^ ((52 : ℤ) - e)| + |q * 2 ^ ((52 : ℤ) - e)| := abs_add _ _
          _ ≤ 1 / 2 + |q * 2 ^ ((52 : ℤ) - e)| := by
              have := rnEven_abs_le (q * 2 ^ ((52 : ℤ) - e))
              rw [hs]
              linarith
          _ = |q * 2 ^ ((52 : ℤ) - e)| + 1 / 2 := by ring
      have h4 : |(s : ℚ)| < ((2 ^ 53 + 1 : ℤ) : ℚ) := by
        have hb : (2 : ℚ) ^ (53 : ℤ) + 1 / 2 < ((2 ^ 53 + 1 : ℤ) : ℚ) := by
          push_cast
          norm_num
        calc |(s : ℚ)| ≤ |q * 2 ^ ((52 : ℤ) - e)| + 1 / 2 := h3
          _ < (2 : ℚ) ^ (53 : ℤ) + 1 / 2 := by linarith [hargbound]
          _ < ((2 ^ 53 + 1 : ℤ) : ℚ) := hb
      have h5 : |s| < 2 ^ 53 + 1 := by
        have : ((|s| : ℤ) : ℚ) < ((2 ^ 53 + 1 : ℤ) : ℚ) := by
          rw [Int.cast_abs]
          exact h4
        exact_mod_cast this
      omega
    rw [hval]
    exact fl64_rep s (e - 52) hsb

/-- One coordinate axis of the float round trip: for window position and
size of magnitude at most 2^31 and a point inside, converting to a
window fraction (one correctly rounded division) and back (int-to-float
conversions, a multiply, an add, each correctly rounded, then `int()`
truncation) lands within one pixel of the original. -/
theorem axis_round_trip {wx w xi : ℤ} (hw0 : 0 < w) (hwB : w ≤ 2 ^ 31)
    (hxB : |wx| ≤ 2 ^ 31) (h1 : wx ≤ xi) (h2 : xi ≤ wx + w) :
    (py_int (fl64 (fl64 (wx : ℚ) + fl64 (fl64 (((xi : ℚ) - wx) / w) * fl64 (w : ℚ)))) -
      xi).natAbs ≤ 1 := by
  have hx53 : |wx| ≤ 2 ^ 53 := le_trans hxB (by norm_num)
  have hw53 : |w| ≤ 2 ^ 53 := by
    calc |w| = w := abs_of_pos hw0
      _ ≤ 2 ^ 53 := le_trans hwB (by norm_num)
  rw [fl64_intCast hx53, fl64_intCast hw53]
  set ε : ℚ := (2 : ℚ) ^ (-53 : ℤ) with hε
  have hεval : ε = 1 / 2 ^ 53 := by rw [hε]; norm_num
  have hεpos : 0 < ε := by rw [hεval]; norm_num
  set t : ℚ := (xi : ℚ) - wx with ht
  set rel : ℚ := fl64 (t / w) with hrel
  set u : ℚ := fl64 (rel * w) with hu
  set v : ℚ := fl64 ((wx : ℚ) + u) with hv
  have hwq : (0 : ℚ) < (w : ℚ) := by exact_mod_cast hw0
  have ht0 : (0 : ℚ) ≤ t := by
    rw [ht]
    have : (wx : ℚ) ≤ (xi : ℚ) := by exact_mod_cast h1
    linarith
  have htw : t ≤ (w : ℚ) := by
    rw [ht]
    have : (xi : ℚ) ≤ (wx : ℚ) + (w : ℚ) := by exact_mod_cast h2
    linarith
  have hq0 : 0 ≤ t / w := div_nonneg ht0 hwq.le
  have hq1 : t / w ≤ 1 := (div_le_one hwq).mpr htw
  have e1 : |rel - t / w| ≤ ε := by
    calc |rel - t / w| ≤ ε * |t / w| := fl64_rel_error _
      _ = ε * (t / w) := by rw [abs_of_nonneg hq0]
      _ ≤ ε * 1 := mul_le_mul_of_nonneg_left hq1 hεpos.le
      _ = ε := mul_one ε
  have hrelb : |rel| ≤ 1 + ε := by
    calc |rel| = |(rel - t / w) + t / w| := by congr 1; ring
      _ ≤ |rel - t / w| + |t / w| := abs_add _ _
      _ ≤ ε + 1 := add_le_add e1 (by rw [abs_of_nonneg hq0]; exact hq1)
      _ = 1 + ε := by ring
  have e2 : |u - rel * w| ≤ ε * ((1 + ε) * w) := by
    calc |u - rel * w| ≤ ε * |rel * w| := fl64_rel_error _
      _ = ε * (|rel| * w) := by rw [abs_mul, abs_of_pos hwq]
      _ ≤ ε * ((1 + ε) * w) := by
          apply mul_le_mul_of_nonneg_left _ hεpos.le
          exact mul_le_mul_of_nonneg_right hrelb hwq.le
  have e3 : |rel * w - t| ≤ ε * w := by
    have hsplit : rel * w - t = (rel - t / w) * w := by
      field_simp
    rw [hsplit, abs_mul, abs_of_pos hwq]
    exact mul_le_mul_of_nonneg_right e1 hwq.le
  have e4 : |u - t| ≤ ε * ((2 + ε) * w) := by
    calc |u - t| = |(u - rel * w) + (rel * w - t)| := by congr 1; ring
      _ ≤ |u - rel * w| + |rel * w - t| := abs_add _ _
      _ ≤ ε * ((1 + ε) * w) + ε * w := add_le_add e2 e3
      _ = ε * ((2 + ε) * w) := by ring
  have hwB' : (w : ℚ) ≤ 2 ^ 31 := by exact_mod_cast hwB
  have hxB' : |(wx : ℚ)| ≤ 2 ^ 31 := by exact_mod_cast hxB
  have e5 : |u - t| ≤ 3 / 2 ^ 22 := by
    have h1w : ε * ((2 + ε) * w) ≤ ε * ((2 + ε) * 2 ^ 31) := by
      apply mul_le_mul_of_nonneg_left _ hεpos.le
      apply mul_le_mul_of_nonneg_left hwB'
      rw [hεval]
      norm_num
    have h2w : ε * ((2 + ε) * 2 ^ 31) ≤ 3 / 2 ^ 22 := by
      rw [hεval]
      norm_num
    exact le_trans e4 (le_trans h1w h2w)
  have hub : |u| ≤ 2 ^ 31 + 1 := by
    calc |u| = |t + (u - t)| := by congr 1; ring
      _ ≤ |t| + |u - t| := abs_add _ _
      _ ≤ 2 ^ 31 + 3 / 2 ^ 22 := add_le_add (by rw [abs_of_nonneg ht0]; linarith) e5
      _ ≤ 2 ^ 31 + 1 := by norm_num
  have hsum : |(wx : ℚ) + u| ≤ 2 ^ 33 := by
    calc |(wx : ℚ) + u| ≤ |(wx : ℚ)| + |u| := abs_add _ _
      _ ≤ 2 ^ 31 + (2 ^ 31 + 1) := add_le_add hxB' hub
      _ ≤ 2 ^ 33 := by norm_num
  have e6 : |v - ((wx : ℚ) + u)| ≤ 2 ^ 33 / 2 ^ 53 := by
    calc |v - ((wx : ℚ) + u)| ≤ ε * |(wx : ℚ) + u| := fl64_rel_error _
      _ ≤ ε * 2 ^ 33 := mul_le_mul_of_nonneg_left hsum hεpos.le
      _ = 2 ^ 33 / 2 ^ 53 := by rw [hεval]; ring
  have e7 : |v - (xi : ℚ)| < 1 := by
    have hxeq : (xi : ℚ) = (wx : ℚ) + t := by rw [ht]; ring
    calc |v - (xi : ℚ)| = |(v - ((wx : ℚ) + u)) + (u - t)| := by rw [hxeq]; congr 1; ring
      _ ≤ |v - ((wx : ℚ) + u)| + |u - t| := abs_add _ _
      _ ≤ 2 ^ 33 / 2 ^ 53 + 3 / 2 ^ 22 := add_le_add e6 e5
      _ < 1 := by norm_num
  have e9 : |(py_int v : ℚ) - (xi : ℚ)| < 2 := by
    calc |(py_int v : ℚ) - (xi : ℚ)| = |((py_int v : ℚ) - v) + (v - (xi : ℚ))| := by
          congr 1; ring
      _ ≤ |(py_int v : ℚ) - v| + |v - (xi : ℚ)| := abs_add _ _
      _ < 1 + 1 := add_lt_add (py_int_abs_lt v) e7
      _ = 2 := by norm_num
  have e10 : |py_int v - xi| < 2 := by
    have h : |((py_int v - xi : ℤ) : ℚ)| < 2 := by
      have hc : ((py_int v - xi : ℤ) : ℚ) = (py_int v : ℚ) - (xi : ℚ) := by push_cast; ring
      rw [hc]
      exact e9
    exact_mod_cast h
  have e11 := abs_lt.mp e10
  omega

/-- C3 (amended): with the Python float arithmetic modelled as binary64
rounding after each operation, the round trip through
get_relative_coordinates and get_absolute_coordinates recovers any
point inside a cached rectangle within at most one pixel per axis,
provided the rectangle's position and size have magnitude at most 2^31
(true of every real display); with no cached rectangle both conversions
coincide with using a full-display rectangle anchored at the origin.
Without the magnitude bound the float rounding can exceed one pixel. -/
theorem coordinate_round_trip_float (r : WindowRect) (screenW screenH x y : Int)
    (hw0 : 0 < r.w) (hh0 : 0 < r.h) (hwB : r.w ≤ 2 ^ 31) (hhB : r.h ≤ 2 ^ 31)
    (hxB : |r.x| ≤ 2 ^ 31) (hyB : |r.y| ≤ 2 ^ 31)
    (hx1 : r.x ≤ x) (hx2 : x ≤ r.x + r.w) (hy1 : r.y ≤ y) (hy2 : y ≤ r.y + r.h) :
    (((get_absolute_coordinates (some r) screenW screenH
        (get_relative_coordinates (some r) screenW screenH x y).1
        (get_relative_coordinates (some r) screenW screenH x y).2).1 - x).natAbs ≤ 1 ∧
     ((get_absolute_coordinates (some r) screenW screenH
        (get_relative_coordinates (some r) screenW screenH x y).1
        (get_relative_coordinates (some r) screenW screenH x y).2).2 - y).natAbs ≤ 1) ∧
    (get_relative_coordinates none screenW screenH x y =
      get_relative_coordinates (some ⟨0, 0, screenW, screenH⟩) screenW screenH x y) ∧
    (∀ rel_x rel_y : ℚ,
      get_absolute_coordinates none screenW screenH rel_x rel_y =
        get_absolute_coordinates (some ⟨0, 0, screenW, screenH⟩) screenW screenH rel_x rel_y) := by
  refine ⟨⟨?_, ?_⟩, ?_, fun rel_x rel_y => ?_⟩
  · have h := axis_round_trip hw0 hwB hxB hx1 hx2
    simpa [get_relative_coordinates, get_absolute_coordinates] using h
  · have h := axis_round_trip hh0 hhB hyB hy1 hy2
    simpa [get_relative_coordinates, get_absolute_coordinates] using h
  · simp [get_relative_coordinates]
  · simp [get_absolute_coordinates, fl64_zero, fl64_idem]

/-- A pathological cached rectangle, still within Python int and double
range, used to exhibit the float rounding of the coordinate round
trip. -/
def wRectHuge : WindowRect := ⟨0, 0, 2 ^ 60, 1⟩

/-- An x coordinate inside wRectHuge whose float round trip misses by
three pixels. -/
def xHuge : ℤ := 2 ^ 59 + 3

/-- C3 counterexample: the round trip is not within one pixel for every
rectangle with positive width and height and every point inside it: for
the rectangle at the origin of width 2^60 and height 1 and the interior
point (2^59 + 3, 0), the relative x coordinate rounds to exactly 1/2,
the absolute x coordinate comes back as 2^59, and the error is three
pixels. -/
theorem coordinate_round_trip_float_cex :
    0 < wRectHuge.w ∧ 0 < wRectHuge.h ∧
    wRectHuge.x ≤ xHuge ∧ xHuge ≤ wRectHuge.x + wRectHuge.w ∧
    ¬ (((get_absolute_coordinates (some wRectHuge) 1920 1080
          (get_relative_coordinates (some wRectHuge) 1920 1080 xHuge 0).1
          (get_relative_coordinates (some wRectHuge) 1920 1080 xHuge 0).2).1 -
        xHuge).natAbs ≤ 1) := by
  have hs1 : rnEven (((576460752303423491 : ℚ) / 1152921504606846976) *
      (2 : ℚ) ^ ((52 : ℤ) - (-1 : ℤ))) = 4503599627370496 := by
    have harg : ((576460752303423491 : ℚ) / 1152921504606846976) *
        (2 : ℚ) ^ ((52 : ℤ) - (-1 : ℤ)) = 4503599627370496 + 3 / 128 := by
      norm_num
    rw [harg]
    apply rnEven_eq_of_lt (n := 4503599627370496) <;> push_cast <;> norm_num
  have hrel : fl64 ((576460752303423491 : ℚ) / 1152921504606846976) = 1 / 2 := by
    have h := fl64_eval_pos (e := -1) (s := 4503599627370496) (by norm_num) (by norm_num)
      (by norm_num) hs1
    rw [h]
    push_cast
    norm_num
  have hW : fl64 (1152921504606846976 : ℚ) = 1152921504606846976 := by
    have h := fl64_rep 1 60 (by norm_num)
    norm_num at h
    exact h
  have hU : fl64 (576460752303423488 : ℚ) = 576460752303423488 := by
    have h := fl64_rep 1 59 (by norm_num)
    norm_num at h
    exact h
  have hpy : py_int (576460752303423488 : ℚ) = (576460752303423488 : ℤ) := by
    have h := py_int_intCast (576460752303423488 : ℤ)
    rwa [show ((576460752303423488 : ℤ) : ℚ) = (576460752303423488 : ℚ) by push_cast; ring]
      at h
  have hval : (get_absolute_coordinates (some wRectHuge) 1920 1080
      (get_relative_coordinates (some wRectHuge) 1920 1080 xHuge 0).1
      (get_relative_coordinates (some wRectHuge) 1920 1080 xHuge 0).2).1 =
      (576460752303423488 : ℤ) := by
    simp only [get_relative_coordinates, get_absolute_coordinates, wRectHuge, xHuge]
    push_cast
    rw [sub_zero, hrel, hW, show (1 / 2 : ℚ) * (1152921504606846976 : ℚ) = 576460752303423488 by
      norm_num, hU, fl64_zero, zero_add, hU, hpy]
  refine ⟨by norm_num [wRectHuge], by norm_num [wRectHuge],
    by norm_num [wRectHuge, xHuge], by norm_num [wRectHuge, xHuge], ?_⟩
  rw [hval]
  have hdiff : ((576460752303423488 : ℤ) - xHuge) = -3 := by
    rw [xHuge]
    norm_num
  rw [hdiff]
  decide

/-- Witness for the amended C3 at an explicit input: the point (37, 45)
inside the rectangle at (10, 20) sized 100 by 50 survives the float
round trip within one pixel, on a 1920 by 1080 display. -/
theorem coordinate_round_trip_float_witness :
    ((get_absolute_coordinates (some ⟨10, 20, 100, 50⟩) 1920 1080
        (get_relative_coordinates (some ⟨10, 20, 100, 50⟩) 1920 1080 37 45).1
        (get_relative_coordinates (some ⟨10, 20, 100, 50⟩) 1920 1080 37 45).2).1
      - 37).natAbs ≤ 1 :=
  ((coordinate_round_trip_float ⟨10, 20, 100, 50⟩ 1920 1080 37 45 (by norm_num)
    (by norm_num) (by norm_num) (by norm_num) (by norm_num) (by norm_num)
    (by norm_num) (by norm_num) (by norm_num) (by norm_num)).1).1

/-- Unfolding a run of the loop over a cons cell. -/
theorem run_loop_cons {Frame : Type} (env : MatchEnv Frame) (skip_races : Bool)
    (i : IterInput Frame) (l : List (IterInput Frame)) (s : LoopState) :
    run_loop env skip_races (i :: l) s =
      run_loop env skip_races l (loop_step env skip_races i s).1 := rfl

/-- Unfolding a run of the loop over an appended input list. -/
theorem run_loop_append {Frame : Type} (env : MatchEnv Frame) (skip_races : Bool)
    (l1 l2 : List (IterInput Frame)) (s : LoopState) :
    run_loop env skip_races (l1 ++ l2) s =
      run_loop env skip_races l2 (run_loop env skip_races l1 s) := by
  simp [run_loop, List.foldl_append]

/-- Dispatching never touches the running flag. -/
theorem step_dispatch_running {Frame : Type} (env : MatchEnv Frame) (skip_races : Bool)
    (inp : IterInput Frame) (current_screen : String) (loopShot : Frame) (t : LoopState) :
    (step_dispatch env skip_races inp current_screen loopShot t).1.running = t.running := by
  unfold step_dispatch
  split <;> simp

/-- Dispatching never touches the consecutive-unknown counter. -/
theorem step_dispatch_counter {Frame : Type} (env : MatchEnv Frame) (skip_races : Bool)
    (inp : IterInput Frame) (current_screen : String) (loopShot : Frame) (t : LoopState) :
    (step_dispatch env skip_races inp current_screen loopShot t).1.consecutive_unknown =
      t.consecutive_unknown := by
  unfold step_dispatch
  split <;> simp

/-- A non-Unknown classification resets the consecutive-unknown counter
and leaves the loop running. -/
theorem loop_step_known_reset {Frame : Type} (env : MatchEnv Frame) (skip_races : Bool)
    (inp : IterInput Frame) (s : LoopState) (f : Frame)
    (hrun : s.running = true) (hshot : inp.shot = some f)
    (hkw : check_for_errors inp.ocrText = false)
    (hdet : detect_screen env f ≠ "unknown") :
    (loop_step env skip_races inp s).1.running = true ∧
    (loop_step env skip_races inp s).1.consecutive_unknown = 0 := by
  simp [loop_step, hrun, hshot, hkw, hdet, step_dispatch_running, step_dispatch_counter]

/-- An Unknown classification below the ceiling increments the counter
and leaves the loop running. -/
theorem loop_step_unknown_small {Frame : Type} (env : MatchEnv Frame) (skip_races : Bool)
    (inp : IterInput Frame) (s : LoopState) (f : Frame)
    (hrun : s.running = true) (hshot : inp.shot = some f)
    (hkw : check_for_errors inp.ocrText = false)
    (hdet : detect_screen env f = "unknown")
    (hc : s.consecutive_unknown + 1 < max_unknown_screens) :
    (loop_step env skip_races inp s).1.running = true ∧
    (loop_step env skip_races inp s).1.consecutive_unknown = s.consecutive_unknown + 1 := by
  have hnot : ¬ (s.consecutive_unknown + 1 ≥ max_unknown_screens) := by omega
  simp [loop_step, hrun, hshot, hkw, hdet, hnot, step_dispatch_running, step_dispatch_counter]

/-- An Unknown classification reaching the ceiling breaks the loop. -/
theorem loop_step_unknown_ceiling {Frame : Type} (env : MatchEnv Frame) (skip_races : Bool)
    (inp : IterInput Frame) (s : LoopState) (f : Frame)
    (hrun : s.running = true) (hshot : inp.shot = some f)
    (hkw : check_for_errors inp.ocrText = false)
    (hdet : detect_screen env f = "unknown")
    (hc : s.consecutive_unknown + 1 ≥ max_unknown_screens) :
    loop_step env skip_races inp s =
      ({ s with consecutive_unknown := s.consecutive_unknown + 1, running := false },
        .stopUnknown) := by
  simp [loop_step, hrun, hshot, hkw, hdet, hc]

/-- Feeding k consecutive Unknown-classified iterations while the counter
stays below the ceiling keeps the loop running and adds k to the
counter. -/
theorem run_loop_unknown_replicate {Frame : Type} (env : MatchEnv Frame) (skip_races : Bool)
    (inp : IterInput Frame) (f : Frame)
    (hshot : inp.shot = some f) (hkw : check_for_errors inp.ocrText = false)
    (hdet : detect_screen env f = "unknown") :
    ∀ (k : Nat) (s : LoopState), s.running = true →
      s.consecutive_unknown + k ≤ 9 →
      (run_loop env skip_races (List.replicate k inp) s).running = true ∧
      (run_loop env skip_races (List.replicate k inp) s).consecutive_unknown =
        s.consecutive_unknown + k := by
  intro k
  induction k with
  | zero =>
    intro s hr hk
    simpa [run_loop] using hr
  | succ n ih =>
    intro s hr hk
    rw [List.replicate_succ, run_loop_cons]
    have hsmall : s.consecutive_unknown + 1 < max_unknown_screens := by
      unfold max_unknown_screens
      omega
    obtain ⟨h1, h2⟩ := loop_step_unknown_small env skip_races inp s f hr hshot hkw hdet hsmall
    obtain ⟨h3, h4⟩ := ih (loop_step env skip_races inp s).1 h1 (by omega)
    exact ⟨h3, by omega⟩

/-- C1: the loop leaves its running state exactly when the consecutive
unknown counter reaches 10 and not before: with the iteration reaching
classification, a non-Unknown result resets the counter to 0 and keeps
running, an Unknown result below the ceiling increments the counter and
keeps running, an Unknown result reaching the ceiling stops the loop,
and from a zero counter feeding 9 Unknown iterations followed by one
non-Unknown iteration leaves the loop running with counter 0. -/
theorem unknown_ceiling_stop_behavior {Frame : Type} (env : MatchEnv Frame)
    (skip_races : Bool) (inp inpK : IterInput Frame) (s : LoopState) (f g : Frame)
    (hrun : s.running = true) (hshot : inp.shot = some f)
    (hkw : check_for_errors inp.ocrText = false) :
    (detect_screen env f ≠ "unknown" →
      (loop_step env skip_races inp s).1.running = true ∧
      (loop_step env skip_races inp s).1.consecutive_unknown = 0) ∧
    (detect_screen env f = "unknown" → s.consecutive_unknown + 1 < 10 →
      (loop_step env skip_races inp s).1.running = true ∧
      (loop_step env skip_races inp s).1.consecutive_unknown = s.consecutive_unknown + 1) ∧
    (detect_screen env f = "unknown" → 10 ≤ s.consecutive_unknown + 1 →
      loop_step env skip_races inp s =
        ({ s with consecutive_unknown := s.consecutive_unknown + 1, running := false },
          .stopUnknown)) ∧
    (detect_screen env f = "unknown" → s.consecutive_unknown = 0 →
      inpK.shot = some g → check_for_errors inpK.ocrText = false →
      detect_screen env g ≠ "unknown" →
      (run_loop env skip_races (List.replicate 9 inp) s).running = true ∧
      (run_loop env skip_races (List.replicate 9 inp) s).consecutive_unknown = 9 ∧
      (run_loop env skip_races (List.replicate 9 inp ++ [inpK]) s).running = true ∧
      (run_loop env skip_races (List.replicate 9 inp ++ [inpK]) s).consecutive_unknown = 0) := by
  refine ⟨fun hdet => ?_, fun hdet hc => ?_, fun hdet hc => ?_,
    fun hdet hc0 hshotK hkwK hdetK => ?_⟩
  · exact loop_step_known_reset env skip_races inp s f hrun hshot hkw hdet
  · exact loop_step_unknown_small env skip_races inp s f hrun hshot hkw hdet
      (by unfold max_unknown_screens; omega)
  · exact loop_step_unknown_ceiling env skip_races inp s f hrun hshot hkw hdet
      (by unfold max_unknown_screens; omega)
  · obtain ⟨h9r, h9c⟩ := run_loop_unknown_replicate env skip_races inp f hshot hkw hdet
      9 s hrun (by omega)
    refine ⟨h9r, by omega, ?_, ?_⟩
    · rw [run_loop_append, run_loop_cons]
      have := loop_step_known_reset env skip_races inpK
        (run_loop env skip_races (List.replicate 9 inp) s) g h9r hshotK hkwK hdetK
      simpa [run_loop] using this.1
    · rw [run_loop_append, run_loop_cons]
      have := loop_step_known_reset env skip_races inpK
        (run_loop env skip_races (List.replicate 9 inp) s) g h9r hshotK hkwK hdetK
      simpa [run_loop] using this.2

/-- A two-frame oracle world: on frame true the main-menu template
matches perfectly, on frame false it scores 0 and nothing matches. -/
def wEnvBool : MatchEnv Bool :=
  ⟨["main_menu"], fun _ f => if f then 1 else 0, fun _ _ => (0, 0), fun _ => (10, 20)⟩

/-- An iteration input classifying Unknown in the two-frame world. -/
def wInpUnk : IterInput Bool := ⟨some false, "", some false, false⟩

/-- An iteration input classifying main_menu in the two-frame world. -/
def wInpKnown : IterInput Bool := ⟨some true, "", some true, false⟩

/-- Witness for C1 at explicit inputs: from a fresh state, 9 Unknown
iterations leave the loop running with counter 9, and a following
non-Unknown iteration resets the counter to 0 with the loop still
running. -/
theorem unknown_ceiling_stop_behavior_witness :
    (run_loop wEnvBool false (List.replicate 9 wInpUnk) LoopState.start).running = true ∧
    (run_loop wEnvBool false (List.replicate 9 wInpUnk) LoopState.start).consecutive_unknown = 9 ∧
    (run_loop wEnvBool false (List.replicate 9 wInpUnk ++ [wInpKnown]) LoopState.start).running
      = true ∧
    (run_loop wEnvBool false (List.replicate 9 wInpUnk ++ [wInpKnown])
      LoopState.start).consecutive_unknown = 0 :=
  (unknown_ceiling_stop_behavior wEnvBool false wInpUnk wInpKnown LoopState.start false true
      rfl rfl (by decide)).2.2.2
    (by norm_num [detect_screen, find_template, wEnvBool, default_threshold])
    rfl rfl (by decide)
    (by norm_num [detect_screen, find_template, wEnvBool, default_threshold]; decide)

/-- C7: a failed capture makes the iteration sleep one second and retry:
the whole loop state is unchanged (so errorsEncountered is not counted
and the consecutive-unknown counter is not incremented), the loop stays
running, and three failed captures in a row still leave the state
unchanged. -/
theorem capture_failure_retry_no_count {Frame : Type} (env : MatchEnv Frame)
    (skip_races : Bool) (inp : IterInput Frame) (s : LoopState) (screenshot_delay : ℚ)
    (hrun : s.running = true) (hshot : inp.shot = none) :
    loop_step env skip_races inp s = (s, .captureFailRetry) ∧
    (loop_step env skip_races inp s).1.stats.errors_encountered =
      s.stats.errors_encountered ∧
    (loop_step env skip_races inp s).1.consecutive_unknown = s.consecutive_unknown ∧
    (loop_step env skip_races inp s).1.running = true ∧
    sleep_seconds screenshot_delay .captureFailRetry = 1 ∧
    run_loop env skip_races [inp, inp, inp] s = s := by
  have h1 : loop_step env skip_races inp s = (s, .captureFailRetry) := by
    simp [loop_step, hrun, hshot]
  refine ⟨h1, by rw [h1], by rw [h1], by rw [h1]; exact hrun, rfl, ?_⟩
  simp [run_loop, h1]

/-- Witness for C7 at an explicit input: three consecutive capture
failures from the fresh state leave it untouched. -/
theorem capture_failure_retry_no_count_witness :
    run_loop wEnvNone false [wInpCapFail, wInpCapFail, wInpCapFail] LoopState.start =
      LoopState.start :=
  (capture_failure_retry_no_count wEnvNone false wInpCapFail LoopState.start 1
    rfl rfl).2.2.2.2.2

/-- C6 counterexample: the claim that a capture failure increments the
errorsEncountered counter is false on the code: at an explicit input
whose capture fails, the counter after the iteration is not the counter
before plus one. -/
theorem capture_failure_counter_cex :
    ¬ ((loop_step wEnvNone false wInpCapFail LoopState.start).1.stats.errors_encountered =
        LoopState.start.stats.errors_encountered + 1) := by
  decide

/-- C6 amended: each transient infrastructure fault is recovered without
propagating to the caller: a capture failure leaves the whole loop state
(hence every counter) unchanged and the loop running, an OCR failure is
swallowed into an empty string, and only a click injection failure
increments errorsEncountered, by exactly one. -/
theorem transient_fault_recovery_amended {Frame : Type} (env : MatchEnv Frame)
    (skip_races : Bool) (inp : IterInput Frame) (s : LoopState) (t : String)
    (stats : SessionStats)
    (hrun : s.running = true) (hshot : inp.shot = none) :
    (loop_step env skip_races inp s).1 = s ∧
    (loop_step env skip_races inp s).1.running = true ∧
    ocr_text_result true t = "" ∧
    click_at true stats = { stats with errors_encountered := stats.errors_encountered + 1 } ∧
    click_at false stats = stats := by
  have h1 : loop_step env skip_races inp s = (s, .captureFailRetry) := by
    simp [loop_step, hrun, hshot]
  exact ⟨by rw [h1], by rw [h1]; exact hrun, rfl, by simp [click_at], by simp [click_at]⟩

/-- Witness for the amended C6 at explicit inputs: a capture-failure
iteration leaves the fresh state unchanged, and a failing click
increments the error counter from 0 to 1. -/
theorem transient_fault_recovery_amended_witness :
    (loop_step wEnvNone false wInpCapFail LoopState.start).1 = LoopState.start ∧
    click_at true SessionStats.init =
      { SessionStats.init with errors_encountered := SessionStats.init.errors_encountered + 1 } :=
  ⟨(transient_fault_recovery_amended wEnvNone false wInpCapFail LoopState.start ""
      SessionStats.init rfl rfl).1,
   (transient_fault_recovery_amended wEnvNone false wInpCapFail LoopState.start ""
      SessionStats.init rfl rfl).2.2.2.1⟩

/-- C8: a failure-keyword hit in the OCR scan of the captured frame makes
the iteration skip classification and dispatch entirely (the state,
including the unknown counter and all statistics, is unchanged) and
sleep the 3-second backoff, which is longer than the 1-second
capture-retry sleep; the keyword set is fixed and a lower-cased text
containing "connection lost" always hits. -/
theorem error_scan_backoff {Frame : Type} (env : MatchEnv Frame) (skip_races : Bool)
    (inp : IterInput Frame) (s : LoopState) (f : Frame) (screenshot_delay : ℚ)
    (hrun : s.running = true) (hshot : inp.shot = some f)
    (hkw : check_for_errors inp.ocrText = true) :
    loop_step env skip_races inp s = (s, .errorBackoff) ∧
    (loop_step env skip_races inp s).1.consecutive_unknown = s.consecutive_unknown ∧
    (loop_step env skip_races inp s).1.stats = s.stats ∧
    sleep_seconds screenshot_delay .errorBackoff = 3 ∧
    sleep_seconds screenshot_delay .captureFailRetry <
      sleep_seconds screenshot_delay .errorBackoff ∧
    (∀ t : String, strContains (pyLower t) "connection lost" = true →
      check_for_errors t = true) := by
  have h1 : loop_step env skip_races inp s = (s, .errorBackoff) := by
    simp [loop_step, hrun, hshot, hkw]
  refine ⟨h1, by rw [h1], by rw [h1], rfl, by norm_num [sleep_seconds], ?_⟩
  intro t ht
  unfold check_for_errors error_indicators
  simp only [List.any_cons, List.any_nil, Bool.or_eq_true]
  exact Or.inr (Or.inr (Or.inl ht))

/-- Witness for C8 at an explicit input: an OCR text reading "Connection
Lost - tap to retry" makes the iteration back off with the state
unchanged. -/
theorem error_scan_backoff_witness :
    loop_step wEnvNone false wInpConnLost LoopState.start = (LoopState.start, .errorBackoff) :=
  (error_scan_backoff wEnvNone false wInpConnLost LoopState.start () 1
    rfl rfl (by decide)).1

/-- The componentwise counter order is reflexive. -/
theorem statsLe_refl (a : SessionStats) : SessionStats.le a a :=
  ⟨le_refl _, le_refl _, le_refl _, le_refl _⟩

/-- The componentwise counter order is transitive. -/
theorem statsLe_trans {a b c : SessionStats} (h1 : SessionStats.le a b)
    (h2 : SessionStats.le b c) : SessionStats.le a c :=
  ⟨le_trans h1.1 h2.1, le_trans h1.2.1 h2.2.1, le_trans h1.2.2.1 h2.2.2.1,
    le_trans h1.2.2.2 h2.2.2.2⟩

/-- Incrementing races_completed only increases the counters. -/
theorem statsLe_inc_races (st : SessionStats) :
    SessionStats.le st { st with races_completed := st.races_completed + 1 } :=
  ⟨le_refl _, Nat.le_succ _, le_refl _, le_refl _⟩

/-- Incrementing training_sessions only increases the counters. -/
theorem statsLe_inc_training (st : SessionStats) :
    SessionStats.le st { st with training_sessions := st.training_sessions + 1 } :=
  ⟨Nat.le_succ _, le_refl _, le_refl _, le_refl _⟩

/-- Incrementing events_handled only increases the counters. -/
theorem statsLe_inc_events (st : SessionStats) :
    SessionStats.le st { st with events_handled := st.events_handled + 1 } :=
  ⟨le_refl _, le_refl _, Nat.le_succ _, le_refl _⟩

/-- Incrementing errors_encountered only increases the counters. -/
theorem statsLe_inc_errors (st : SessionStats) :
    SessionStats.le st { st with errors_encountered := st.errors_encountered + 1 } :=
  ⟨le_refl _, le_refl _, le_refl _, Nat.le_succ _⟩

/-- Clicking only increases the counters. -/
theorem click_at_le (b : Bool) (stats : SessionStats) :
    SessionStats.le stats (click_at b stats) := by
  unfold click_at
  split
  · exact statsLe_inc_errors stats
  · exact statsLe_refl stats

/-- Clicking never changes races_completed. -/
theorem click_at_races (b : Bool) (stats : SessionStats) :
    (click_at b stats).races_completed = stats.races_completed := by
  unfold click_at
  split <;> rfl

/-- Clicking never changes training_sessions. -/
theorem click_at_training (b : Bool) (stats : SessionStats) :
    (click_at b stats).training_sessions = stats.training_sessions := by
  unfold click_at
  split <;> rfl

/-- Clicking never changes events_handled. -/
theorem click_at_events (b : Bool) (stats : SessionStats) :
    (click_at b stats).events_handled = stats.events_handled := by
  unfold click_at
  split <;> rfl

/-- The main-menu handler only increases the counters. -/
theorem handle_main_menu_le {Frame : Type} (env : MatchEnv Frame) (shot : Frame)
    (cf : Bool) (stats : SessionStats) :
    SessionStats.le stats (handle_main_menu env shot cf stats).2 := by
  unfold handle_main_menu
  split
  · exact click_at_le cf stats
  · exact statsLe_refl stats

/-- The training-screen handler only increases the counters. -/
theorem handle_training_screen_le {Frame : Type} (env : MatchEnv Frame) (shot : Frame)
    (cf : Bool) (stats : SessionStats) :
    SessionStats.le stats (handle_training_screen env shot cf stats).2 := by
  unfold handle_training_screen
  split
  · exact click_at_le cf stats
  · exact statsLe_refl stats

/-- The event-screen handler only increases the counters. -/
theorem handle_event_screen_le {Frame : Type} (env : MatchEnv Frame) (shot : Frame)
    (cf : Bool) (stats : SessionStats) :
    SessionStats.le stats (handle_event_screen env shot cf stats).2 := by
  unfold handle_event_screen
  split
  · exact click_at_le cf stats
  · exact statsLe_refl stats

/-- The race-screen handler only increases the counters. -/
theorem handle_race_screen_le {Frame : Type} (env : MatchEnv Frame) (shot : Frame)
    (skip cf : Bool) (stats : SessionStats) :
    SessionStats.le stats (handle_race_screen env shot skip cf stats).2 := by
  unfold handle_race_screen
  split
  · exact click_at_le cf stats
  · split
    · exact click_at_le cf stats
    · exact statsLe_refl stats

/-- The race-result handler only increases the counters. -/
theorem handle_race_result_le {Frame : Type} (env : MatchEnv Frame) (shot : Frame)
    (cf : Bool) (stats : SessionStats) :
    SessionStats.le stats (handle_race_result env shot cf stats).2 := by
  unfold handle_race_result
  split
  · exact statsLe_trans (click_at_le cf stats) (statsLe_inc_races _)
  · exact statsLe_refl stats

/-- The training-result handler only increases the counters. -/
theorem handle_training_result_le {Frame : Type} (env : MatchEnv Frame) (shot : Frame)
    (cf : Bool) (stats : SessionStats) :
    SessionStats.le stats (handle_training_result env shot cf stats).2 := by
  unfold handle_training_result
  split
  · exact statsLe_trans (click_at_le cf stats) (statsLe_inc_training _)
  · exact statsLe_refl stats

/-- The choice-screen handler only increases the counters. -/
theorem handle_choice_screen_le {Frame : Type} (env : MatchEnv Frame) (shot : Frame)
    (cf : Bool) (stats : SessionStats) :
    SessionStats.le stats (handle_choice_screen env shot cf stats).2 := by
  unfold handle_choice_screen
  split
  · exact statsLe_trans (click_at_le cf stats) (statsLe_inc_events _)
  · exact statsLe_refl stats

/-- A dispatched handler result only increases the counters. -/
theorem dispatch_screen_le {Frame : Type} (env : MatchEnv Frame) (skip : Bool)
    (cur : String) (hshot : Option Frame) (lshot : Frame) (cf : Bool)
    (stats : SessionStats) (hb : Bool) (st1 : SessionStats)
    (hres : dispatch_screen env skip cur hshot lshot cf stats = some (hb, st1)) :
    SessionStats.le stats st1 := by
  unfold dispatch_screen at hres
  split_ifs at hres
  case pos =>
    cases hshot with
    | none => simp at hres
    | some fr =>
      simp only [Option.map_some', Option.some.injEq] at hres
      have h := handle_main_menu_le env fr cf stats
      rw [hres] at h
      exact h
  case pos =>
    cases hshot with
    | none => simp at hres
    | some fr =>
      simp only [Option.map_some', Option.some.injEq] at hres
      have h := handle_training_screen_le env fr cf stats
      rw [hres] at h
      exact h
  case pos =>
    cases hshot with
    | none => simp at hres
    | some fr =>
      simp only [Option.map_some', Option.some.injEq] at hres
      have h := handle_event_screen_le env fr cf stats
      rw [hres] at h
      exact h
  case pos =>
    cases hshot with
    | none => simp at hres
    | some fr =>
      simp only [Option.map_some', Option.some.injEq] at hres
      have h := handle_race_screen_le env fr skip cf stats
      rw [hres] at h
      exact h
  case pos =>
    cases hshot with
    | none => simp at hres
    | some fr =>
      simp only [Option.map_some', Option.some.injEq] at hres
      have h := handle_race_result_le env fr cf stats
      rw [hres] at h
      exact h
  case pos =>
    cases hshot with
    | none => simp at hres
    | some fr =>
      simp only [Option.map_some', Option.some.injEq] at hres
      have h := handle_training_result_le env fr cf stats
      rw [hres] at h
      exact h
  case pos =>
    cases hshot with
    | none => simp at hres
    | some fr =>
      simp only [Option.map_some', Option.some.injEq] at hres
      have h := handle_choice_screen_le env fr cf stats
      rw [hres] at h
      exact h
  case neg =>
    rw [Option.some.injEq] at hres
    cases hm : find_template env "continue_button" lshot default_threshold with
    | none =>
      rw [hm] at hres
      injection hres with e1 e2
      subst e2
      exact statsLe_refl stats
    | some v =>
      rw [hm] at hres
      injection hres with e1 e2
      subst e2
      exact click_at_le cf stats

/-- One dispatch, exception path included, only increases the counters. -/
theorem step_dispatch_le {Frame : Type} (env : MatchEnv Frame) (skip : Bool)
    (inp : IterInput Frame) (cur : String) (lshot : Frame) (t : LoopState) :
    SessionStats.le t.stats (step_dispatch env skip inp cur lshot t).1.stats := by
  unfold step_dispatch
  cases hres : dispatch_screen env skip cur inp.handlerShot lshot inp.clickFails t.stats with
  | none =>
    simp only [hres]
    exact statsLe_inc_errors t.stats
  | some p =>
    obtain ⟨hb, st1⟩ := p
    simp only [hres]
    exact dispatch_screen_le env skip cur inp.handlerShot lshot inp.clickFails t.stats
      hb st1 hres

/-- One loop iteration only increases the counters. -/
theorem loop_step_le {Frame : Type} (env : MatchEnv Frame) (skip : Bool)
    (inp : IterInput Frame) (s : LoopState) :
    SessionStats.le s.stats (loop_step env skip inp s).1.stats := by
  cases hr : s.running with
  | false =>
    simp only [loop_step, hr]
    exact statsLe_refl s.stats
  | true =>
    cases hshot : inp.shot with
    | none =>
      simp only [loop_step, hr, hshot]
      exact statsLe_refl s.stats
    | some f =>
      by_cases hkw : check_for_errors inp.ocrText = true
      · simp only [loop_step, hr, hshot, hkw]
        exact statsLe_refl s.stats
      · have hkw' : check_for_errors inp.ocrText = false := by
          simpa using hkw
        by_cases hdet : detect_screen env f = "unknown"
        · by_cases hc : s.consecutive_unknown + 1 ≥ max_unknown_screens
          · simp only [loop_step, hr, hshot]
            simp [hkw', hdet, hc]
            exact statsLe_refl s.stats
          · have h := step_dispatch_le env skip inp "unknown" f
              { s with consecutive_unknown := s.consecutive_unknown + 1 }
            simp only [loop_step, hr, hshot] at h ⊢
            simp [hkw', hdet, hc] at h ⊢
            exact h
        · have h := step_dispatch_le env skip inp (detect_screen env f) f
            { s with consecutive_unknown := 0 }
          simp only [loop_step, hr, hshot] at h ⊢
          simp [hkw', hdet] at h ⊢
          exact h

/-- Counters only increase along any run of the loop. -/
theorem run_loop_le {Frame : Type} (env : MatchEnv Frame) (skip : Bool)
    (inps : List (IterInput Frame)) (s : LoopState) :
    SessionStats.le s.stats (run_loop env skip inps s).stats := by
  induction inps generalizing s with
  | nil => exact statsLe_refl s.stats
  | cons i l ih =>
    rw [run_loop_cons]
    exact statsLe_trans (loop_step_le env skip i s) (ih (loop_step env skip i s).1)

/-- The main-menu handler never touches the three outcome counters. -/
theorem handle_main_menu_outcomes {Frame : Type} (env : MatchEnv Frame) (shot : Frame)
    (cf : Bool) (stats : SessionStats) :
    (handle_main_menu env shot cf stats).2.races_completed = stats.races_completed ∧
    (handle_main_menu env shot cf stats).2.training_sessions = stats.training_sessions ∧
    (handle_main_menu env shot cf stats).2.events_handled = stats.events_handled := by
  unfold handle_main_menu
  split <;> simp [click_at_races, click_at_training, click_at_events]

/-- The training-screen handler never touches the three outcome
counters. -/
theorem handle_training_screen_outcomes {Frame : Type} (env : MatchEnv Frame) (shot : Frame)
    (cf : Bool) (stats : SessionStats) :
    (handle_training_screen env shot cf stats).2.races_completed = stats.races_completed ∧
    (handle_training_screen env shot cf stats).2.training_sessions = stats.training_sessions ∧
    (handle_training_screen env shot cf stats).2.events_handled = stats.events_handled := by
  unfold handle_training_screen
  split <;> simp [click_at_races, click_at_training, click_at_events]

/-- The event-screen handler never touches the three outcome counters. -/
theorem handle_event_screen_outcomes {Frame : Type} (env : MatchEnv Frame) (shot : Frame)
    (cf : Bool) (stats : SessionStats) :
    (handle_event_screen env shot cf stats).2.races_completed = stats.races_completed ∧
    (handle_event_screen env shot cf stats).2.training_sessions = stats.training_sessions ∧
    (handle_event_screen env shot cf stats).2.events_handled = stats.events_handled := by
  unfold handle_event_screen
  split <;> simp [click_at_races, click_at_training, click_at_events]

/-- The race-screen handler never touches the three outcome counters (in
particular it never increments races_completed). -/
theorem handle_race_screen_outcomes {Frame : Type} (env : MatchEnv Frame) (shot : Frame)
    (skip cf : Bool) (stats : SessionStats) :
    (handle_race_screen env shot skip cf stats).2.races_completed = stats.races_completed ∧
    (handle_race_screen env shot skip cf stats).2.training_sessions = stats.training_sessions ∧
    (handle_race_screen env shot skip cf stats).2.events_handled = stats.events_handled := by
  unfold handle_race_screen
  split
  · simp [click_at_races, click_at_training, click_at_events]
  · split <;> simp [click_at_races, click_at_training, click_at_events]

/-- A dispatch for a screen name other than the three result screens
never touches the three outcome counters. -/
theorem dispatch_screen_outcome_counters {Frame : Type} (env : MatchEnv Frame) (skip : Bool)
    (cur : String) (hshot : Option Frame) (lshot : Frame) (cf : Bool)
    (stats : SessionStats)
    (h1 : cur ≠ "race_result") (h2 : cur ≠ "training_result") (h3 : cur ≠ "choice_screen")
    (hb : Bool) (st1 : SessionStats)
    (hres : dispatch_screen env skip cur hshot lshot cf stats = some (hb, st1)) :
    st1.races_completed = stats.races_completed ∧
    st1.training_sessions = stats.training_sessions ∧
    st1.events_handled = stats.events_handled := by
  unfold dispatch_screen at hres
  split_ifs at hres with e1 e2 e3 e4
  · cases hshot with
    | none => simp at hres
    | some fr =>
      simp only [Option.map_some', Option.some.injEq] at hres
      have h := handle_main_menu_outcomes env fr cf stats
      rw [hres] at h
      exact h
  · cases hshot with
    | none => simp at hres
    | some fr =>
      simp only [Option.map_some', Option.some.injEq] at hres
      have h := handle_training_screen_outcomes env fr cf stats
      rw [hres] at h
      exact h
  · cases hshot with
    | none => simp at hres
    | some fr =>
      simp only [Option.map_some', Option.some.injEq] at hres
      have h := handle_event_screen_outcomes env fr cf stats
      rw [hres] at h
      exact h
  · cases hshot with
    | none => simp at hres
    | some fr =>
      simp only [Option.map_some', Option.some.injEq] at hres
      have h := handle_race_screen_outcomes env fr skip cf stats
      rw [hres] at h
      exact h
  · rw [Option.some.injEq] at hres
    cases hm : find_template env "continue_button" lshot default_threshold with
    | none =>
      rw [hm] at hres
      injection hres with ea eb
      subst eb
      exact ⟨rfl, rfl, rfl⟩
    | some v =>
      rw [hm] at hres
      injection hres with ea eb
      subst eb
      exact ⟨click_at_races cf stats, click_at_training cf stats, click_at_events cf stats⟩

/-- A dispatch step for a screen name other than the three result screens
never touches the three outcome counters, exception path included. -/
theorem step_dispatch_outcome_counters {Frame : Type} (env : MatchEnv Frame) (skip : Bool)
    (inp : IterInput Frame) (cur : String) (lshot : Frame) (t : LoopState)
    (h1 : cur ≠ "race_result") (h2 : cur ≠ "training_result") (h3 : cur ≠ "choice_screen") :
    (step_dispatch env skip inp cur lshot t).1.stats.races_completed =
      t.stats.races_completed ∧
    (step_dispatch env skip inp cur lshot t).1.stats.training_sessions =
      t.stats.training_sessions ∧
    (step_dispatch env skip inp cur lshot t).1.stats.events_handled =
      t.stats.events_handled := by
  unfold step_dispatch
  cases hres : dispatch_screen env skip cur inp.handlerShot lshot inp.clickFails t.stats with
  | none => simp [hres]
  | some p =>
    obtain ⟨hb, st1⟩ := p
    simp only [hres]
    exact dispatch_screen_outcome_counters env skip cur inp.handlerShot lshot inp.clickFails
      t.stats h1 h2 h3 hb st1 hres

/-- The classifier result is always one of the four screen names or
unknown. -/
theorem detect_screen_cases {Frame : Type} (env : MatchEnv Frame) (f : Frame) :
    detect_screen env f = "main_menu" ∨ detect_screen env f = "training_screen" ∨
    detect_screen env f = "race_screen" ∨ detect_screen env f = "event_screen" ∨
    detect_screen env f = "unknown" := by
  unfold detect_screen
  split_ifs <;> simp

/-- The classifier result is never one of the three result-screen
names. -/
theorem detect_screen_ne_results {Frame : Type} (env : MatchEnv Frame) (f : Frame) :
    detect_screen env f ≠ "race_result" ∧ detect_screen env f ≠ "training_result" ∧
    detect_screen env f ≠ "choice_screen" := by
  unfold detect_screen
  split_ifs <;> refine ⟨?_, ?_, ?_⟩ <;> decide

/-- One loop iteration never touches the three outcome counters. -/
theorem loop_step_outcome_counters {Frame : Type} (env : MatchEnv Frame) (skip : Bool)
    (inp : IterInput Frame) (s : LoopState) :
    (loop_step env skip inp s).1.stats.races_completed = s.stats.races_completed ∧
    (loop_step env skip inp s).1.stats.training_sessions = s.stats.training_sessions ∧
    (loop_step env skip inp s).1.stats.events_handled = s.stats.events_handled := by
  cases hr : s.running with
  | false => simp [loop_step, hr]
  | true =>
    cases hshot : inp.shot with
    | none => simp [loop_step, hr, hshot]
    | some f =>
      by_cases hkw : check_for_errors inp.ocrText = true
      · simp [loop_step, hr, hshot, hkw]
      · have hkw' : check_for_errors inp.ocrText = false := by simpa using hkw
        by_cases hdet : detect_screen env f = "unknown"
        · by_cases hc : s.consecutive_unknown + 1 ≥ max_unknown_screens
          · simp [loop_step, hr, hshot, hkw', hdet, hc]
          · have h := step_dispatch_outcome_counters env skip inp "unknown" f
              { s with consecutive_unknown := s.consecutive_unknown + 1 }
              (by decide) (by decide) (by decide)
            simp only [loop_step, hr, hshot] at h ⊢
            simp [hkw', hdet, hc] at h ⊢
            exact h
        · have hne := detect_screen_ne_results env f
          have h := step_dispatch_outcome_counters env skip inp (detect_screen env f) f
            { s with consecutive_unknown := 0 } hne.1 hne.2.1 hne.2.2
          simp only [loop_step, hr, hshot] at h ⊢
          simp [hkw', hdet] at h ⊢
          exact h

/-- C9: the classifier only ever returns one of the five screen names
main_menu, training_screen, race_screen, event_screen or unknown —
never race_result, training_result or choice_screen — and consequently
no run of the loop ever changes the races_completed, training_sessions
or events_handled counters: the dispatch branches for the three result
screens are unreachable from the loop. -/
theorem detect_screen_range_unreachable {Frame : Type} (env : MatchEnv Frame) (f : Frame) :
    detect_screen env f ∈
      ["main_menu", "training_screen", "race_screen", "event_screen", "unknown"] ∧
    detect_screen env f ≠ "race_result" ∧
    detect_screen env f ≠ "training_result" ∧
    detect_screen env f ≠ "choice_screen" ∧
    (∀ (skip : Bool) (inps : List (IterInput Frame)) (s : LoopState),
      (run_loop env skip inps s).stats.races_completed = s.stats.races_completed ∧
      (run_loop env skip inps s).stats.training_sessions = s.stats.training_sessions ∧
      (run_loop env skip inps s).stats.events_handled = s.stats.events_handled) := by
  refine ⟨?_, (detect_screen_ne_results env f).1, (detect_screen_ne_results env f).2.1,
    (detect_screen_ne_results env f).2.2, ?_⟩
  · rcases detect_screen_cases env f with h | h | h | h | h <;> simp [h]
  · intro skip inps s
    induction inps generalizing s with
    | nil => exact ⟨rfl, rfl, rfl⟩
    | cons i l ih =>
      rw [run_loop_cons]
      obtain ⟨a1, a2, a3⟩ := loop_step_outcome_counters env skip i s
      obtain ⟨b1, b2, b3⟩ := ih (loop_step env skip i s).1
      exact ⟨by rw [b1, a1], by rw [b2, a2], by rw [b3, a3]⟩

/-- Witness for C9 at explicit inputs: a three-iteration run mixing known
and unknown screens leaves races_completed at its initial value. -/
theorem detect_screen_range_unreachable_witness :
    (run_loop wEnvBool false [wInpKnown, wInpUnk, wInpKnown]
        LoopState.start).stats.races_completed =
      LoopState.start.stats.races_completed :=
  ((detect_screen_range_unreachable wEnvBool false).2.2.2.2 false
    [wInpKnown, wInpUnk, wInpKnown] LoopState.start).1

/-- C5: the four session counters are monotonically non-decreasing across
any run of the loop, and each qualifying handler success increments its
counter by exactly one: a successful race-result handling adds one to
races_completed (a race-screen handling never touches it), a successful
training-result handling adds one to training_sessions, a handled
choice adds one to events_handled, and an unsuccessful handler leaves
the statistics untouched. -/
theorem session_stats_monotone_increments {Frame : Type} (env : MatchEnv Frame)
    (shot : Frame) (click_fails skip_races : Bool) (stats : SessionStats)
    (inps : List (IterInput Frame)) (s : LoopState) :
    SessionStats.le s.stats (run_loop env skip_races inps s).stats ∧
    ((handle_race_result env shot click_fails stats).1 = true →
      (handle_race_result env shot click_fails stats).2.races_completed =
        stats.races_completed + 1) ∧
    ((handle_race_result env shot click_fails stats).1 = false →
      (handle_race_result env shot click_fails stats).2 = stats) ∧
    (handle_race_screen env shot skip_races click_fails stats).2.races_completed =
      stats.races_completed ∧
    ((handle_training_result env shot click_fails stats).1 = true →
      (handle_training_result env shot click_fails stats).2.training_sessions =
        stats.training_sessions + 1) ∧
    ((handle_training_result env shot click_fails stats).1 = false →
      (handle_training_result env shot click_fails stats).2 = stats) ∧
    ((handle_choice_screen env shot click_fails stats).1 = true →
      (handle_choice_screen env shot click_fails stats).2.events_handled =
        stats.events_handled + 1) ∧
    ((handle_choice_screen env shot click_fails stats).1 = false →
      (handle_choice_screen env shot click_fails stats).2 = stats) := by
  refine ⟨run_loop_le env skip_races inps s, ?_, ?_,
    (handle_race_screen_outcomes env shot skip_races click_fails stats).1, ?_, ?_, ?_, ?_⟩
  · intro hsucc
    unfold handle_race_result at hsucc ⊢
    cases hm : find_template env "continue_button" shot default_threshold with
    | none => rw [hm] at hsucc; simp at hsucc
    | some v => simp [hm, click_at_races]
  · intro hfail
    unfold handle_race_result at hfail ⊢
    cases hm : find_template env "continue_button" shot default_threshold with
    | none => simp [hm]
    | some v => rw [hm] at hfail; simp at hfail
  · intro hsucc
    unfold handle_training_result at hsucc ⊢
    cases hm : find_template env "continue_button" shot default_threshold with
    | none => rw [hm] at hsucc; simp at hsucc
    | some v => simp [hm, click_at_training]
  · intro hfail
    unfold handle_training_result at hfail ⊢
    cases hm : find_template env "continue_button" shot default_threshold with
    | none => simp [hm]
    | some v => rw [hm] at hfail; simp at hfail
  · intro hsucc
    unfold handle_choice_screen at hsucc ⊢
    cases hm : find_template env "choice_option_1" shot default_threshold with
    | none => rw [hm] at hsucc; simp at hsucc
    | some v => simp [hm, click_at_events]
  · intro hfail
    unfold handle_choice_screen at hfail ⊢
    cases hm : find_template env "choice_option_1" shot default_threshold with
    | none => simp [hm]
    | some v => rw [hm] at hfail; simp at hfail

/-- Witness for C5 at explicit inputs: counters never decrease over a
concrete two-iteration run, and a successful race-result handling on a
library holding continue_button increments races_completed from 0 to
exactly 1. -/
theorem session_stats_monotone_increments_witness :
    SessionStats.le LoopState.start.stats
      (run_loop wEnvBool false [wInpKnown, wInpUnk] LoopState.start).stats ∧
    (handle_race_result wEnvCont () false SessionStats.init).2.races_completed =
      SessionStats.init.races_completed + 1 :=
  ⟨(session_stats_monotone_increments wEnvBool false false false SessionStats.init
      [wInpKnown, wInpUnk] LoopState.start).1,
   (session_stats_monotone_increments wEnvCont () false false SessionStats.init
      [] LoopState.start).2.1
      (by norm_num [handle_race_result, find_template, wEnvCont, default_threshold])⟩

end Uma
